import Mathlib

/-!
# Verification of the clustercost-cli validation core

Shallow embedding of the pure core of `src/index.mjs`: the three input
validators (`validateNamespace`, `validateServiceName`, `validatePort`) and
the Helm argument builder (`buildAgentBaseUrl`, `buildDashboardHelmArgs`),
together with a model of the JavaScript primitives they rely on
(`String.prototype.trim`, the `\s` regex class, and `Number()` string
coercion, idealised over exact rationals instead of IEEE doubles).
-/

namespace ClusterCost

/-- A JavaScript value as it can reach the validators: `undefined`, `null`,
a string, or a (finite) number.  Numbers are idealised as exact rationals. -/
inductive JSValue where
  | undef : JSValue
  | null : JSValue
  | str : String → JSValue
  | num : ℚ → JSValue
deriving DecidableEq

/-- Result of JavaScript numeric coercion: `NaN`, `±Infinity`, or a finite
value (idealised as an exact rational). -/
inductive JSNumber where
  | nan : JSNumber
  | posInf : JSNumber
  | negInf : JSNumber
  | finite : ℚ → JSNumber
deriving DecidableEq

/-- The JavaScript whitespace set: ECMAScript `WhiteSpace` ∪ `LineTerminator`,
which is both the set trimmed by `String.prototype.trim` and the set matched
by the regex class `\s`. -/
def jsWhitespace (c : Char) : Bool :=
  let n := c.toNat
  n = 0x20 || (0x9 ≤ n && n ≤ 0xD) || n = 0xA0 || n = 0x1680 ||
    (0x2000 ≤ n && n ≤ 0x200A) || n = 0x2028 || n = 0x2029 ||
    n = 0x202F || n = 0x205F || n = 0x3000 || n = 0xFEFF

/-- Remove leading and trailing JavaScript whitespace from a character list. -/
def stripWs (l : List Char) : List Char :=
  ((l.dropWhile jsWhitespace).reverse.dropWhile jsWhitespace).reverse

/-- Model of `String.prototype.trim`. -/
def jsTrim (s : String) : String :=
  (stripWs s.toList).asString

/-- Model of `/\s/.test(s)`: does the string contain a whitespace character? -/
def hasWs (s : String) : Bool :=
  s.toList.any jsWhitespace

/-- Numeric value of a decimal digit character, if it is one. -/
def decDigit (c : Char) : Option Nat :=
  if '0' ≤ c ∧ c ≤ '9' then some (c.toNat - '0'.toNat) else none

/-- Numeric value of a hexadecimal digit character, if it is one. -/
def hexDigit (c : Char) : Option Nat :=
  if '0' ≤ c ∧ c ≤ '9' then some (c.toNat - '0'.toNat)
  else if 'a' ≤ c ∧ c ≤ 'f' then some (c.toNat - 'a'.toNat + 10)
  else if 'A' ≤ c ∧ c ≤ 'F' then some (c.toNat - 'A'.toNat + 10)
  else none

/-- Numeric value of an octal digit character, if it is one. -/
def octDigit (c : Char) : Option Nat :=
  if '0' ≤ c ∧ c ≤ '7' then some (c.toNat - '0'.toNat) else none

/-- Numeric value of a binary digit character, if it is one. -/
def binDigit (c : Char) : Option Nat :=
  if c = '0' then some 0 else if c = '1' then some 1 else none

/-- Parse a maximal non-empty run of digits in the given base; return its
value, the number of digits, and the rest of the input. -/
def parseDigits (dig : Char → Option Nat) (base : Nat) (l : List Char) :
    Option (Nat × Nat × List Char) :=
  let ds := l.takeWhile fun c => (dig c).isSome
  if ds.isEmpty then none
  else some (ds.foldl (fun a c => a * base + (dig c).getD 0) 0, ds.length,
    l.drop ds.length)

/-- Parse a whole input as a non-empty digit string in the given base
(the `0x`/`0o`/`0b` literal bodies of `Number()`). -/
def parseAllDigits (dig : Char → Option Nat) (base : Nat) (l : List Char) :
    Option Nat :=
  if !l.isEmpty && l.all (fun c => (dig c).isSome) then
    some (l.foldl (fun a c => a * base + (dig c).getD 0) 0)
  else none

/-- Parse an optional `ExponentPart` (`e`/`E`, optional sign, digits).
Absence of an exponent yields exponent `0`; a bare `e` with no digits is a
parse failure of the whole literal. -/
def parseExpOpt (l : List Char) : Option (Int × List Char) :=
  match l with
  | [] => some (0, [])
  | c :: rest =>
    if c = 'e' ∨ c = 'E' then
      match rest with
      | '+' :: r => (parseDigits decDigit 10 r).map fun p => ((p.1 : Int), p.2.2)
      | '-' :: r => (parseDigits decDigit 10 r).map fun p => (-(p.1 : Int), p.2.2)
      | r => (parseDigits decDigit 10 r).map fun p => ((p.1 : Int), p.2.2)
    else some (0, l)

/-- Scale a rational by a signed power of ten. -/
def applyExp (q : ℚ) (e : Int) : ℚ :=
  if 0 ≤ e then q * 10 ^ e.toNat else q / 10 ^ (-e).toNat

/-- Parse ECMAScript `StrUnsignedDecimalLiteral` minus the `Infinity` case:
`digits [. digits] [exp]` or `. digits [exp]`, consuming the whole input. -/
def parseUnsignedDecimal (l : List Char) : Option ℚ :=
  match l with
  | '.' :: rest =>
    match parseDigits decDigit 10 rest with
    | none => none
    | some (f, k, r) =>
      match parseExpOpt r with
      | some (e, []) => some (applyExp ((f : ℚ) / 10 ^ k) e)
      | _ => none
  | _ =>
    match parseDigits decDigit 10 l with
    | none => none
    | some (i, _, r) =>
      match r with
      | '.' :: r2 =>
        match parseDigits decDigit 10 r2 with
        | some (f, k, r3) =>
          match parseExpOpt r3 with
          | some (e, []) => some (applyExp ((i : ℚ) + (f : ℚ) / 10 ^ k) e)
          | _ => none
        | none =>
          match parseExpOpt r2 with
          | some (e, []) => some (applyExp (i : ℚ) e)
          | _ => none
      | _ =>
        match parseExpOpt r with
        | some (e, []) => some (applyExp (i : ℚ) e)
        | _ => none

/-- Parse a signed decimal literal or `Infinity` (`StrDecimalLiteral`). -/
def parseSignedDecimal (l : List Char) : JSNumber :=
  let p : Bool × List Char :=
    match l with
    | '+' :: r => (false, r)
    | '-' :: r => (true, r)
    | _ => (false, l)
  if p.2 = "Infinity".toList then
    if p.1 then .negInf else .posInf
  else
    match parseUnsignedDecimal p.2 with
    | some q => .finite (if p.1 then -q else q)
    | none => .nan

/-- Model of JavaScript `Number()` applied to a string (`StringToNumber`):
strip whitespace, empty means `0`, otherwise a decimal literal with optional
sign/fraction/exponent, `Infinity`, or an unsigned `0x`/`0o`/`0b` literal;
anything else is `NaN`. -/
def jsStrToNumber (s : String) : JSNumber :=
  match stripWs s.toList with
  | [] => .finite 0
  | '0' :: c :: rest =>
    if c = 'x' ∨ c = 'X' then
      match parseAllDigits hexDigit 16 rest with
      | some n => .finite n
      | none => .nan
    else if c = 'o' ∨ c = 'O' then
      match parseAllDigits octDigit 8 rest with
      | some n => .finite n
      | none => .nan
    else if c = 'b' ∨ c = 'B' then
      match parseAllDigits binDigit 2 rest with
      | some n => .finite n
      | none => .nan
    else parseSignedDecimal ('0' :: c :: rest)
  | l => parseSignedDecimal l

/-- Model of JavaScript `Number()` on a non-string primitive:
`Number(undefined)` is `NaN`, `Number(null)` is `0`, numbers coerce to
themselves. -/
def jsToNumber : JSValue → JSNumber
  | .undef => .nan
  | .null => .finite 0
  | .str s => jsStrToNumber s
  | .num q => .finite q

/-- `Number.isNaN`. -/
def JSNumber.isNaN : JSNumber → Bool
  | .nan => true
  | _ => false

/-- JavaScript `numeric <= 0` (false for `NaN`). -/
def JSNumber.leZero : JSNumber → Bool
  | .nan => false
  | .posInf => false
  | .negInf => true
  | .finite q => q ≤ 0

/-- JavaScript `numeric > 65535` (false for `NaN`). -/
def JSNumber.gtPortMax : JSNumber → Bool
  | .nan => false
  | .posInf => true
  | .negInf => false
  | .finite q => 65535 < q

/-- Outcome of calling a validator on an arbitrary value: either it returns
a `ValidationResult` (`none` meaning valid) or it throws a `TypeError`
(modelled by `Except.error ()`, reachable only via `.trim()` on a number). -/
abbrev ValidatorOutcome := Except Unit (Option String)

/-- `validateNamespace` from `src/index.mjs`: `undefined`/`null` and
whitespace-only input are empty, embedded whitespace is rejected, anything
else is valid.  Calling it on a number throws (`value.trim()` on a
non-string). -/
def validateNamespace : JSValue → ValidatorOutcome
  | .undef => .ok (some "Namespace cannot be empty.")
  | .null => .ok (some "Namespace cannot be empty.")
  | .num _ => .error ()
  | .str s =>
    let trimmed := jsTrim s
    if trimmed = "" then .ok (some "Namespace cannot be empty.")
    else if hasWs trimmed then .ok (some "Namespace cannot contain spaces.")
    else .ok none

/-- `validateServiceName` from `src/index.mjs`: same shape as
`validateNamespace` with its own message texts. -/
def validateServiceName : JSValue → ValidatorOutcome
  | .undef => .ok (some "Service name is required.")
  | .null => .ok (some "Service name is required.")
  | .num _ => .error ()
  | .str s =>
    let trimmed := jsTrim s
    if trimmed = "" then .ok (some "Service name is required.")
    else if hasWs trimmed then .ok (some "Service name cannot contain spaces.")
    else .ok none

/-- `validatePort` from `src/index.mjs`: trim if the value is a string,
coerce with `Number()`, and reject when
`Number.isNaN(numeric) || numeric <= 0 || numeric > 65535`.  Never throws. -/
def validatePort (value : JSValue) : Option String :=
  let numeric : JSNumber :=
    match value with
    | .str s => jsStrToNumber (jsTrim s)
    | v => jsToNumber v
  if numeric.isNaN || numeric.leZero || numeric.gtPortMax then
    some "Enter a valid TCP port (1-65535)."
  else none

/-- `DEFAULT_NAMESPACE` constant. -/
def DEFAULT_NAMESPACE : String := "clustercost"

/-- `AGENT_RELEASE` constant. -/
def AGENT_RELEASE : String := "clustercost-agent"

/-- `AGENT_CHART` constant. -/
def AGENT_CHART : String := "clustercost/clustercost-agent-k8s"

/-- `DASHBOARD_RELEASE` constant. -/
def DASHBOARD_RELEASE : String := "clustercost-dashboard"

/-- `DASHBOARD_CHART` constant. -/
def DASHBOARD_CHART : String := "clustercost/clustercost-dashboard"

/-- Model of JavaScript `String.prototype.split` with a one-character
separator, on character lists. -/
def splitChar (sep : Char) : List Char → List (List Char)
  | [] => [[]]
  | c :: rest =>
    let r := splitChar sep rest
    if c = sep then [] :: r
    else
      match r with
      | [] => [[c]]
      | h :: t => (c :: h) :: t

/-- `AGENT_SERVICE_HOST`, built as
`` `${AGENT_RELEASE}-${AGENT_CHART.split('/')[1]}` ``. -/
def AGENT_SERVICE_HOST : String :=
  AGENT_RELEASE ++ "-" ++ ((splitChar '/' AGENT_CHART.toList).getD 1 []).asString

/-- `AGENT_SERVICE_PORT` constant. -/
def AGENT_SERVICE_PORT : Nat := 8080

/-- `buildAgentBaseUrl` from `src/index.mjs`:
`` `http://${AGENT_SERVICE_HOST}.${namespace}.svc.cluster.local:${AGENT_SERVICE_PORT}` ``. -/
def buildAgentBaseUrl (ns : String) : String :=
  "http://" ++ AGENT_SERVICE_HOST ++ "." ++ ns ++ ".svc.cluster.local:" ++
    toString AGENT_SERVICE_PORT

/-- `buildDashboardHelmArgs` from `src/index.mjs`: six fixed tokens, plus a
`--set-string agents[0].baseUrl=<url>` override when the namespace is not the
default. -/
def buildDashboardHelmArgs (ns : String) : List String :=
  let args := ["upgrade", "--install", DASHBOARD_RELEASE, DASHBOARD_CHART,
    "-n", ns]
  if ns ≠ DEFAULT_NAMESPACE then
    args ++ ["--set-string", "agents[0].baseUrl=" ++ buildAgentBaseUrl ns]
  else args

/-! ## Spec-side predicates and helper lemmas -/

/-- The spec's port-failure condition, read mathematically: the coercion is
not-a-number, or the numeric value is ≤ 0, or it exceeds 65535 (`+Infinity`
exceeds 65535; `-Infinity` is ≤ 0). -/
def portFailureSpec : JSNumber → Prop
  | .nan => True
  | .posInf => True
  | .negInf => True
  | .finite q => q ≤ 0 ∨ 65535 < q

instance portFailureSpecDecidable : ∀ n, Decidable (portFailureSpec n)
  | .nan => isTrue trivial
  | .posInf => isTrue trivial
  | .negInf => isTrue trivial
  | .finite q => inferInstanceAs (Decidable (q ≤ 0 ∨ 65535 < q))

/-- Modelled from the spec (claim-side definition, for refutation): the
acceptance set claimed for the port validator — strings whose trimmed form
parses as an integer-valued number in the inclusive range [1, 65535]. -/
def portSpecAccepts (s : String) : Prop :=
  ∃ q : ℚ, jsStrToNumber (jsTrim s) = .finite q ∧ q.den = 1 ∧ 1 ≤ q ∧ q ≤ 65535

/-- A validator result is either `none` (valid) or a non-empty message. -/
def wellFormed (r : Option String) : Prop :=
  ∀ m, r = some m → m ≠ ""

theorem str_append_assoc (a b c : String) : a ++ b ++ c = a ++ (b ++ c) := by
  cases a with
  | mk la =>
    cases b with
    | mk lb =>
      cases c with
      | mk lc => exact congrArg String.mk (List.append_assoc la lb lc)

theorem buildAgentBaseUrl_eq (ns : String) :
    buildAgentBaseUrl ns =
      "http://clustercost-agent-clustercost-agent-k8s." ++ ns ++
        ".svc.cluster.local:8080" := by
  unfold buildAgentBaseUrl
  rw [show "http://" ++ AGENT_SERVICE_HOST ++ "." =
    "http://clustercost-agent-clustercost-agent-k8s." from rfl]
  rw [str_append_assoc]
  rfl

theorem validateNamespace_str (s : String) :
    validateNamespace (.str s) =
      .ok (if jsTrim s = "" then some "Namespace cannot be empty."
        else if hasWs (jsTrim s) then some "Namespace cannot contain spaces."
        else none) := by
  simp only [validateNamespace]
  split
  · rfl
  · split <;> rfl

theorem validateServiceName_str (s : String) :
    validateServiceName (.str s) =
      .ok (if jsTrim s = "" then some "Service name is required."
        else if hasWs (jsTrim s) then some "Service name cannot contain spaces."
        else none) := by
  simp only [validateServiceName]
  split
  · rfl
  · split <;> rfl

/-! ## Claim theorems -/

/-- C1: `validateNamespace` returns "Namespace cannot be empty." for
absent/undefined input and for input whose trimmed form is empty; it returns
"Namespace cannot contain spaces." when the trimmed form is non-empty but
contains a whitespace character; otherwise it returns undefined (valid).
The first failing rule, in that order, determines the result. -/
theorem validateNamespace_spec :
    validateNamespace .undef = .ok (some "Namespace cannot be empty.") ∧
    (∀ s : String, jsTrim s = "" →
      validateNamespace (.str s) = .ok (some "Namespace cannot be empty.")) ∧
    (∀ s : String, jsTrim s ≠ "" → hasWs (jsTrim s) = true →
      validateNamespace (.str s) = .ok (some "Namespace cannot contain spaces.")) ∧
    (∀ s : String, jsTrim s ≠ "" → hasWs (jsTrim s) = false →
      validateNamespace (.str s) = .ok none) := by
  refine ⟨rfl, ?_, ?_, ?_⟩ <;> intro s h1 <;>
    simp [validateNamespace, h1]

/-- Witness for C1: the three string-input rules fire at concrete inputs. -/
theorem validateNamespace_spec_witness :
    validateNamespace (.str "   ") = .ok (some "Namespace cannot be empty.") ∧
    validateNamespace (.str "prod namespace") =
      .ok (some "Namespace cannot contain spaces.") ∧
    validateNamespace (.str "clustercost") = .ok none :=
  ⟨validateNamespace_spec.2.1 "   " (by decide),
   validateNamespace_spec.2.2.1 "prod namespace" (by decide) (by decide),
   validateNamespace_spec.2.2.2 "clustercost" (by decide) (by decide)⟩

/-- C6: `validateServiceName` has the same three-rule shape as the namespace
validator, with messages "Service name is required." and
"Service name cannot contain spaces.". -/
theorem validateServiceName_spec :
    validateServiceName .undef = .ok (some "Service name is required.") ∧
    (∀ s : String, jsTrim s = "" →
      validateServiceName (.str s) = .ok (some "Service name is required.")) ∧
    (∀ s : String, jsTrim s ≠ "" → hasWs (jsTrim s) = true →
      validateServiceName (.str s) =
        .ok (some "Service name cannot contain spaces.")) ∧
    (∀ s : String, jsTrim s ≠ "" → hasWs (jsTrim s) = false →
      validateServiceName (.str s) = .ok none) := by
  refine ⟨rfl, ?_, ?_, ?_⟩ <;> intro s h1 <;>
    simp [validateServiceName, h1]

/-- Witness for C6: the three string-input rules fire at concrete inputs. -/
theorem validateServiceName_spec_witness :
    validateServiceName (.str "") = .ok (some "Service name is required.") ∧
    validateServiceName (.str "svc dashboard") =
      .ok (some "Service name cannot contain spaces.") ∧
    validateServiceName (.str " svc-cluster ") = .ok none :=
  ⟨validateServiceName_spec.2.1 "" (by decide),
   validateServiceName_spec.2.2.1 "svc dashboard" (by decide) (by decide),
   validateServiceName_spec.2.2.2 " svc-cluster " (by decide) (by decide)⟩

/-- C2: on any string, `validatePort` trims, coerces with `Number()`, and
fails exactly when the coercion is not-a-number, the value is ≤ 0, or the
value exceeds 65535; in particular `" 8080 "` is valid and `"99999"`, `"0"`,
`"-1"`, `"abc"` each fail. -/
theorem validatePort_spec :
    (∀ s : String,
      validatePort (.str s) =
        if portFailureSpec (jsStrToNumber (jsTrim s)) then
          some "Enter a valid TCP port (1-65535)."
        else none) ∧
    validatePort (.str " 8080 ") = none ∧
    validatePort (.str "99999") = some "Enter a valid TCP port (1-65535)." ∧
    validatePort (.str "0") = some "Enter a valid TCP port (1-65535)." ∧
    validatePort (.str "-1") = some "Enter a valid TCP port (1-65535)." ∧
    validatePort (.str "abc") = some "Enter a valid TCP port (1-65535)." := by
  refine ⟨?_, by with_unfolding_all decide, by with_unfolding_all decide,
    by with_unfolding_all decide, by with_unfolding_all decide,
    by with_unfolding_all decide⟩
  intro s
  unfold validatePort
  cases h : jsStrToNumber (jsTrim s) with
  | nan => simp [h, portFailureSpec, JSNumber.isNaN, JSNumber.leZero,
      JSNumber.gtPortMax]
  | posInf => simp [h, portFailureSpec, JSNumber.isNaN, JSNumber.leZero,
      JSNumber.gtPortMax]
  | negInf => simp [h, portFailureSpec, JSNumber.isNaN, JSNumber.leZero,
      JSNumber.gtPortMax]
  | finite q => simp [h, portFailureSpec, JSNumber.isNaN, JSNumber.leZero,
      JSNumber.gtPortMax, Bool.or_eq_true, decide_eq_true_eq]

/-- C3 counterexample: `validatePort` accepts `"8.5"`, which is not an
integer-valued numeral, so the claimed acceptance set (integer-valued numbers
in [1, 65535]) is wrong. -/
theorem validatePort_integer_counterexample :
    validatePort (.str "8.5") = none ∧ ¬ portSpecAccepts "8.5" := by
  constructor
  · with_unfolding_all decide
  · rintro ⟨q, hq, hden, -, -⟩
    rw [show jsStrToNumber (jsTrim "8.5") = JSNumber.finite (17 / 2) from by
      with_unfolding_all decide] at hq
    cases hq
    exact absurd hden (by with_unfolding_all decide)

/-- C3 amended: `validatePort` accepts exactly the strings whose trimmed form
coerces to a finite number q with 0 < q ≤ 65535; integrality is not required
(e.g. "8.5" is accepted) and the lower bound is strict positivity. -/
theorem validatePort_accepts_iff (s : String) :
    validatePort (.str s) = none ↔
      ∃ q : ℚ, jsStrToNumber (jsTrim s) = .finite q ∧ 0 < q ∧ q ≤ 65535 := by
  unfold validatePort
  cases h : jsStrToNumber (jsTrim s) with
  | nan => simp [h, JSNumber.isNaN, JSNumber.leZero, JSNumber.gtPortMax]
  | posInf => simp [h, JSNumber.isNaN, JSNumber.leZero, JSNumber.gtPortMax]
  | negInf => simp [h, JSNumber.isNaN, JSNumber.leZero, JSNumber.gtPortMax]
  | finite q =>
    simp [h, JSNumber.isNaN, JSNumber.leZero, JSNumber.gtPortMax, not_or,
      not_le, not_lt]

/-- Witness for C3's amended claim: at the concrete input "8.5" the
acceptance condition holds with q = 17/2. -/
theorem validatePort_accepts_iff_witness :
    validatePort (.str "8.5") = none :=
  (validatePort_accepts_iff "8.5").mpr
    ⟨17 / 2, by with_unfolding_all decide, by norm_num, by norm_num⟩

/-- C4: `buildDashboardHelmArgs` appends "--set-string" and the interpolated
`agents[0].baseUrl=...` token exactly when the namespace differs from the
default "clustercost"; otherwise the output is just the six fixed tokens. -/
theorem buildDashboardHelmArgs_override (ns : String) :
    (ns ≠ "clustercost" →
      buildDashboardHelmArgs ns =
        ["upgrade", "--install", "clustercost-dashboard",
         "clustercost/clustercost-dashboard", "-n", ns, "--set-string",
         "agents[0].baseUrl=http://clustercost-agent-clustercost-agent-k8s." ++
           ns ++ ".svc.cluster.local:8080"]) ∧
    (ns = "clustercost" →
      buildDashboardHelmArgs ns =
        ["upgrade", "--install", "clustercost-dashboard",
         "clustercost/clustercost-dashboard", "-n", ns]) := by
  constructor
  · intro h
    simp only [buildDashboardHelmArgs, DEFAULT_NAMESPACE, DASHBOARD_RELEASE,
      DASHBOARD_CHART, if_pos h, buildAgentBaseUrl_eq]
    rw [show ("agents[0].baseUrl=" ++
      ("http://clustercost-agent-clustercost-agent-k8s." ++ ns ++
        ".svc.cluster.local:8080")) =
      "agents[0].baseUrl=http://clustercost-agent-clustercost-agent-k8s." ++
        ns ++ ".svc.cluster.local:8080" from ?_]
    · rfl
    · rw [← str_append_assoc, ← str_append_assoc]
      rfl
  · intro h
    simp [buildDashboardHelmArgs, DEFAULT_NAMESPACE, DASHBOARD_RELEASE,
      DASHBOARD_CHART, h]

/-- Witness for C4: at namespace "team-a" the override pair is present, with
the fully interpolated base URL token. -/
theorem buildDashboardHelmArgs_override_witness :
    buildDashboardHelmArgs "team-a" =
      ["upgrade", "--install", "clustercost-dashboard",
       "clustercost/clustercost-dashboard", "-n", "team-a", "--set-string",
       "agents[0].baseUrl=http://clustercost-agent-clustercost-agent-k8s.team-a.svc.cluster.local:8080"] ∧
    buildDashboardHelmArgs "clustercost" =
      ["upgrade", "--install", "clustercost-dashboard",
       "clustercost/clustercost-dashboard", "-n", "clustercost"] := by
  constructor
  · rw [(buildDashboardHelmArgs_override "team-a").1 (by decide)]
    rfl
  · exact (buildDashboardHelmArgs_override "clustercost").2 rfl

/-- C5: with the default namespace "clustercost" the output is exactly the
six fixed tokens and contains no "--set-string" token. -/
theorem buildDashboardHelmArgs_default :
    buildDashboardHelmArgs "clustercost" =
      ["upgrade", "--install", "clustercost-dashboard",
       "clustercost/clustercost-dashboard", "-n", "clustercost"] ∧
    "--set-string" ∉ buildDashboardHelmArgs "clustercost" := by
  constructor
  · rfl
  · decide

/-- C7: the argument builder is deterministic and idempotent — two calls on
the same namespace produce element-for-element equal lists. -/
theorem buildDashboardHelmArgs_deterministic (ns : String) :
    buildDashboardHelmArgs ns = buildDashboardHelmArgs ns ∧
    (buildDashboardHelmArgs ns).length = (buildDashboardHelmArgs ns).length ∧
    ∀ i : Nat, (buildDashboardHelmArgs ns).get? i =
      (buildDashboardHelmArgs ns).get? i :=
  ⟨rfl, rfl, fun _ => rfl⟩

/-- C8: on every string or absent/undefined (or null) input, the three
validators return normally (no thrown error), and the result is either
undefined (valid) or a non-empty message string. -/
theorem validators_total (v : JSValue) (h : ∀ q : ℚ, v ≠ .num q) :
    (∃ r, validateNamespace v = .ok r ∧ wellFormed r) ∧
    (∃ r, validateServiceName v = .ok r ∧ wellFormed r) ∧
    wellFormed (validatePort v) := by
  cases v with
  | undef =>
    refine ⟨⟨_, rfl, ?_⟩, ⟨_, rfl, ?_⟩, ?_⟩ <;>
      intro m hm <;> cases hm <;> decide
  | null =>
    refine ⟨⟨_, rfl, ?_⟩, ⟨_, rfl, ?_⟩, ?_⟩ <;>
      intro m hm <;> cases hm <;> decide
  | num q => exact absurd rfl (h q)
  | str s =>
    refine ⟨⟨_, validateNamespace_str s, ?_⟩,
      ⟨_, validateServiceName_str s, ?_⟩, ?_⟩ <;> intro m hm
    · split at hm
      · cases hm; decide
      · split at hm
        · cases hm; decide
        · cases hm
    · split at hm
      · cases hm; decide
      · split at hm
        · cases hm; decide
        · cases hm
    · unfold validatePort at hm
      by_cases hc : ((jsStrToNumber (jsTrim s)).isNaN ||
          (jsStrToNumber (jsTrim s)).leZero ||
          (jsStrToNumber (jsTrim s)).gtPortMax) = true
      · rw [if_pos hc] at hm; cases hm; decide
      · rw [if_neg hc] at hm; cases hm

/-- Witness for C8: the totality and result-shape guarantees, instantiated
at the string input "web". -/
theorem validators_total_witness :
    (∃ r, validateNamespace (.str "web") = .ok r ∧ wellFormed r) ∧
    (∃ r, validateServiceName (.str "web") = .ok r ∧ wellFormed r) ∧
    wellFormed (validatePort (.str "web")) :=
  validators_total (.str "web") (fun q hq => by cases hq)

/-- C9: `null` input is treated exactly like `undefined` by the namespace and
service-name validators: both return their empty-input message, with no
thrown error. -/
theorem validate_null_like_undefined :
    validateNamespace .null = .ok (some "Namespace cannot be empty.") ∧
    validateServiceName .null = .ok (some "Service name is required.") ∧
    validateNamespace .null = validateNamespace .undef ∧
    validateServiceName .null = validateServiceName .undef :=
  ⟨rfl, rfl, rfl, rfl⟩

/-- C10: `validatePort` does not throw on non-string inputs: `undefined`
(coercing to NaN) and `null` (coercing to 0) are rejected with the failure
message, and a number passed directly is validated by the same range rule,
e.g. 8080 is valid. -/
theorem validatePort_nonstring :
    validatePort .undef = some "Enter a valid TCP port (1-65535)." ∧
    validatePort .null = some "Enter a valid TCP port (1-65535)." ∧
    jsToNumber .undef = .nan ∧
    jsToNumber .null = .finite 0 ∧
    validatePort (.num 8080) = none ∧
    (∀ q : ℚ, validatePort (.num q) =
      if q ≤ 0 ∨ 65535 < q then some "Enter a valid TCP port (1-65535)."
      else none) := by
  refine ⟨rfl, ?_, rfl, rfl, ?_, ?_⟩
  · with_unfolding_all decide
  · with_unfolding_all decide
  · intro q
    unfold validatePort
    simp [jsToNumber, JSNumber.isNaN, JSNumber.leZero, JSNumber.gtPortMax]

end ClusterCost
